import Mathlib

/-!
Verification development for the IronSpider resurrection service worker
(`E4-service-worker/public/sw.js`).

The service worker is shallowly embedded: network fetches and their
transport-level failures are oracle inputs of type `Except String Response`,
CacheStorage is an association list from path to stored response snapshot,
`postMessage` fan-out is a pure function from the client registry to a list
of deliveries, and the monitor lifecycle is a small state machine driven by
the events the browser delivers to the worker (`install`, `activate`,
`fetch`).
-/

namespace IronSpider

/-- Constant `CACHE_NAME` from sw.js. -/
def CACHE_NAME : String := "ironspider-v1"

/-- Constant `MALWARE_PATH` from sw.js: the server path the SW watches and caches. -/
def MALWARE_PATH : String := "/malware.js"

/-- Constant `UPLOAD_PATH` from sw.js: the server endpoint that writes files to disk. -/
def UPLOAD_PATH : String := "/upload"

/-- Constant `CHECK_INTERVAL` from sw.js: ms between malware-presence polls. -/
def CHECK_INTERVAL : Nat := 5000

/-- An HTTP response as the worker observes it: status, status text, header
list and body text. -/
structure Response where
  status : Nat
  statusText : String
  headers : List (String × String)
  body : String
deriving DecidableEq

/-- `Response.ok` of the Fetch API: status in the inclusive range 200..299. -/
def Response.ok (r : Response) : Bool :=
  decide (200 ≤ r.status ∧ r.status ≤ 299)

/-- A message posted to clients via `postMessage`: the objects built in
`resurrect` carry a `type` string and optionally a `timestamp` or a
`reason`. -/
structure Msg where
  mtype : String
  timestamp : Option Nat
  reason : Option String
deriving DecidableEq

/-- The structured body of the POST to `UPLOAD_PATH` in step 2 of
`resurrect`: endpoint path, logical filename, and file content. -/
structure UploadRequest where
  path : String
  filename : String
  content : String
deriving DecidableEq

/-- Result of one run of the resurrection sequence: the messages passed to
`notifyClients`, in order, and the write requests issued to the upload
endpoint, in order. -/
structure RunResult where
  events : List Msg
  uploads : List UploadRequest
deriving DecidableEq

/-- The write request `resurrect()` issues in step 2: a POST to
`UPLOAD_PATH` whose JSON body carries the fixed filename `malware.js` and
the cached payload as content. -/
def uploadReq (payload : String) : UploadRequest :=
  { path := UPLOAD_PATH, filename := "malware.js", content := payload }

/-- `resurrect()` from sw.js.  `cacheRead` is the outcome of step 1's
cache interaction (`caches.open` / `cache.match` / `clone().text()`):
an exception, a miss, or the payload text.  `upload` is the network oracle
for the POST to the upload endpoint: the server's response, or a
transport-level error message.  `tsStart`/`tsDone` are the values
`Date.now()` yields for the two timestamped messages. -/
def resurrect (cacheRead : Except String (Option String))
    (upload : UploadRequest → Except String Response)
    (tsStart tsDone : Nat) : RunResult :=
  let started : Msg := { mtype := "RESURRECTION_STARTED", timestamp := some tsStart, reason := none }
  match cacheRead with
  | Except.error e =>
      { events := [started,
          { mtype := "RESURRECTION_FAILED", timestamp := none,
            reason := some ("Cache read error: " ++ e) }],
        uploads := [] }
  | Except.ok none =>
      { events := [started,
          { mtype := "RESURRECTION_FAILED", timestamp := none,
            reason := some "No cached payload in CacheStorage" }],
        uploads := [] }
  | Except.ok (some payload) =>
      let req : UploadRequest := uploadReq payload
      match upload req with
      | Except.ok uploadResp =>
          if uploadResp.ok then
            { events := [started,
                { mtype := "RESURRECTED", timestamp := some tsDone, reason := none }],
              uploads := [req] }
          else
            { events := [started,
                { mtype := "RESURRECTION_FAILED", timestamp := none,
                  reason := some ("Upload returned HTTP " ++ toString uploadResp.status) }],
              uploads := [req] }
      | Except.error e =>
          { events := [started,
              { mtype := "RESURRECTION_FAILED", timestamp := none,
                reason := some ("Upload error: " ++ e) }],
            uploads := [req] }

/-- Result of one tick of the monitor: how many times `resurrect()` was
invoked, and the events/uploads it produced. -/
structure TickResult where
  resurrectCalls : Nat
  events : List Msg
  uploads : List UploadRequest
deriving DecidableEq

/-- `checkAndResurrect()` from sw.js.  `probe` is the outcome of the
cache-busting `fetch(MALWARE_PATH?...)`: a response, or a transport-level
error.  A 2xx response logs and does nothing; a non-2xx response and a
transport error both run `resurrect()` exactly once. -/
def checkAndResurrect (probe : Except String Response)
    (cacheRead : Except String (Option String))
    (upload : UploadRequest → Except String Response)
    (tsStart tsDone : Nat) : TickResult :=
  match probe with
  | Except.ok resp =>
      if resp.ok then
        { resurrectCalls := 0, events := [], uploads := [] }
      else
        let r := resurrect cacheRead upload tsStart tsDone
        { resurrectCalls := 1, events := r.events, uploads := r.uploads }
  | Except.error _ =>
      let r := resurrect cacheRead upload tsStart tsDone
      { resurrectCalls := 1, events := r.events, uploads := r.uploads }

/-! ## CacheStorage model

A stored response snapshot, with the Fetch API's one-shot body stream made
explicit through a `bodyUsed` flag: reading the text of a response consumes
its body, and `clone()` yields a second response whose body can be read
independently.  The cache bucket is an association list from request path
to snapshot. -/

/-- A response snapshot stored in CacheStorage. -/
structure Snapshot where
  status : Nat
  headers : List (String × String)
  body : String
  bodyUsed : Bool
deriving DecidableEq

/-- `Response.clone()`: a second response with the same status, headers and
body, whose body stream is independent of the original's. -/
def Snapshot.clone (s : Snapshot) : Snapshot :=
  { status := s.status, headers := s.headers, body := s.body, bodyUsed := s.bodyUsed }

/-- `Response.text()`: yields the body text and marks the stream consumed;
rejects when the body stream was already read. -/
def Snapshot.text (s : Snapshot) : Except String (String × Snapshot) :=
  if s.bodyUsed then Except.error "body stream already read"
  else Except.ok (s.body, { s with bodyUsed := true })

/-- A CacheStorage bucket: path-keyed response snapshots. -/
abbrev Cache := List (String × Snapshot)

/-- `cache.match(path)`: the snapshot stored under `path`, or `none` on a
miss (it returns undefined rather than throwing). -/
def Cache.matchPath (c : Cache) (path : String) : Option Snapshot :=
  match c.find? (fun e => e.1 == path) with
  | some e => some e.2
  | none => none

/-- Step 1 of `resurrect()` against a concrete cache: `cache.match`, then
`cached.clone().text()`.  The text read happens on the clone, so the stored
entry is not consumed; the bucket comes back unchanged in every branch. -/
def Cache.readPayload (c : Cache) (path : String) :
    Except String (Option String) × Cache :=
  match c.matchPath path with
  | none => (Except.ok none, c)
  | some cached =>
      match cached.clone.text with
      | Except.ok (b, _) => (Except.ok (some b), c)
      | Except.error e => (Except.error e, c)

/-- `resurrect()` run against a concrete cache bucket: step 1 reads the
payload out of the bucket, the rest of the sequence is `resurrect`; the
final bucket state is returned alongside. -/
def resurrectOnCache (c : Cache)
    (upload : UploadRequest → Except String Response)
    (tsStart tsDone : Nat) : RunResult × Cache :=
  let rd := c.readPayload MALWARE_PATH
  (resurrect rd.1 upload tsStart tsDone, rd.2)

/-! ## Interception and injection layer -/

/-- The script block string `injectedScript` built in `injectIntoPage`
(value of the template literal after JS escape processing, so the source's
trailing `<\/script>` is the text `</script>` and `—` is an em
dash). -/
def injectedScript : String :=
  "<script id=\"sw-injected-block\">\n  // ── Injected by Service Worker via respondWith() ──\n  // This code runs inside the PAGE\x27s JavaScript context, not the SW\x27s.\n  // It was inserted by the SW mid-flight, before the browser parsed the body.\n  // The page\x27s JS engine does not distinguish between server-written and\n  // SW-injected script tags — both execute with identical privileges.\n  (function swInjection() \x7b\n    // Update the visible indicator to confirm the injection took place.\n    const el = document.getElementById(\x27sw-dom-injection\x27);\n    if (el) \x7b\n      el.textContent = \x27YES — injected by SW via respondWith()\x27;\n      el.classList.add(\x27status-warn\x27);\n    \x7d\n\n    // Read localStorage — something the SW cannot do directly.\n    // This proves the injection is a full privilege bypass, not just cosmetic.\n    const token = localStorage.getItem(\x27plc-session-token\x27) || \x27(none stored)\x27;\n    const tokenEl = document.getElementById(\x27sw-extracted-token\x27);\n    if (tokenEl) tokenEl.textContent = token;\n\n    console.log(\x27[SW-INJECTED] running in page context. localStorage token:\x27, token);\n  \x7d)();\n</script>"

/-- Split a character list at the first occurrence of `pat`: `some (pre,
post)` with the input equal to `pre ++ pat ++ post` and `pre` shortest, or
`none` when `pat` does not occur. -/
def splitFirst (pat : List Char) : List Char → Option (List Char × List Char)
  | [] => if pat.isPrefixOf ([] : List Char) then some ([], []) else none
  | c :: rest =>
      if pat.isPrefixOf (c :: rest) then some ([], (c :: rest).drop pat.length)
      else (splitFirst pat rest).map (fun pr => (c :: pr.1, pr.2))

/-- First-occurrence replacement on character lists: the list unchanged when
the pattern does not occur. -/
def listReplaceFirst (pat repl s : List Char) : List Char :=
  match splitFirst pat s with
  | some (pre, post) => pre ++ repl ++ post
  | none => s

/-- JS `String.prototype.replace` with a plain string pattern: replaces only
the first occurrence, and returns the string unchanged when the pattern is
absent. -/
def jsReplaceFirst (s pat repl : String) : String :=
  String.mk (listReplaceFirst pat.data repl.data s.data)

/-- Outcome of fetching the real document inside `injectIntoPage`: the
fetch itself rejects; the fetch resolves but `response.text()` rejects; or
both succeed and the text read yields the response body. -/
inductive FetchOutcome
  | netError (msg : String)
  | bodyError (resp : Response) (msg : String)
  | success (resp : Response)
deriving DecidableEq

/-- ASCII-lowercase a header name character by character (JS `Headers`
normalizes header names case-insensitively). -/
def lowerName (s : String) : String :=
  String.mk (s.data.map Char.toLower)

/-- `headers.delete(k)` on a JS `Headers` object: header names compare
case-insensitively. -/
def deleteHeader (hs : List (String × String)) (k : String) : List (String × String) :=
  hs.filter (fun kv => lowerName kv.1 != lowerName k)

/-- The successful branch of `injectIntoPage`: insert `injectedScript` and
a newline before the first `</body>` of the fetched HTML, drop the
content-length header, keep status and status text. -/
def buildInjectedResponse (resp : Response) : Response :=
  { status := resp.status,
    statusText := resp.statusText,
    headers := deleteHeader resp.headers "content-length",
    body := jsReplaceFirst resp.body "</body>" (injectedScript ++ "\n</body>") }

/-- `injectIntoPage(request)` from sw.js: on success return the modified
document; when the inner fetch or the body read throws, the catch branch
returns a fresh `fetch(request)`, whose outcome is the `fallback`
oracle. -/
def injectIntoPage (o : FetchOutcome) (fallback : Except String Response) :
    Except String Response :=
  match o with
  | FetchOutcome.success resp => Except.ok (buildInjectedResponse resp)
  | FetchOutcome.netError _ => fallback
  | FetchOutcome.bodyError _ _ => fallback

/-- What `fetch(event.request)` alone yields under the same network
outcome: the response when the fetch resolves (whether or not a later body
read would fail), the transport error when it rejects. -/
def liveResult : FetchOutcome → Except String Response
  | FetchOutcome.netError m => Except.error m
  | FetchOutcome.bodyError r _ => Except.ok r
  | FetchOutcome.success r => Except.ok r

/-- The response chosen by the fetch event listener for a request with the
given pathname: `/` and `/index.html` go through `injectIntoPage`, every
other request is answered by `fetch(event.request)` unchanged. -/
def handleFetchEvent (pathname : String) (o : FetchOutcome)
    (fallback : Except String Response) : Except String Response :=
  if pathname == "/" || pathname == "/index.html" then injectIntoPage o fallback
  else liveResult o

/-! ## Notification fan-out -/

/-- One foreground client as seen by `clients.matchAll`: whether this SW
controls it, and whether it is a window client. -/
structure ClientInfo where
  id : Nat
  controlled : Bool
  isWindow : Bool
deriving DecidableEq

/-- `self.clients.matchAll({includeUncontrolled, type})` over a registry of
clients: keeps uncontrolled clients only when `includeUncontrolled`, and
non-window clients only when the type filter is off. -/
def matchAll (registry : List ClientInfo)
    (includeUncontrolled : Bool) (windowOnly : Bool) : List ClientInfo :=
  registry.filter (fun c => (includeUncontrolled || c.controlled) && (!windowOnly || c.isWindow))

/-- `notifyClients(message)` from sw.js: enumerate
`matchAll({includeUncontrolled: true, type: window})` and post the message
to each client; the result is the list of (client id, message)
deliveries. -/
def notifyClients (registry : List ClientInfo) (m : Msg) : List (Nat × Msg) :=
  (matchAll registry true true).map (fun c => (c.id, m))

/-- All deliveries produced by one resurrection run: each event is fanned
out through `notifyClients`, in event order. -/
def runDeliveries (registry : List ClientInfo) (r : RunResult) : List (Nat × Msg) :=
  r.events.flatMap (fun m => notifyClients registry m)

/-! ## Monitor lifecycle state machine -/

/-- In-process state of one live service-worker thread: the module-level
`monitorRunning` flag and the number of live `setInterval` timers armed by
`startMonitor`. -/
structure SWState where
  monitorRunning : Bool
  timers : Nat
deriving DecidableEq

/-- State of a freshly spawned worker process: the module-level
`let monitorRunning = false` and no timer armed. -/
def initState : SWState :=
  { monitorRunning := false, timers := 0 }

/-- `startMonitor()` from sw.js: guarded by `monitorRunning`; when the flag
is clear it sets the flag and arms one `setInterval` timer, otherwise it
returns immediately. -/
def startMonitor (s : SWState) : SWState :=
  if s.monitorRunning then s
  else { monitorRunning := true, timers := s.timers + 1 }

/-- The browser events a live worker process handles. -/
inductive SWEvent
  | install
  | activate
  | fetchEv
deriving DecidableEq

/-- Effect of each handled event on the in-process monitor state:
the install handler only caches the payload, the activate handler calls
`startMonitor()`, and the fetch handler calls `startMonitor()` when the
flag is clear. -/
def handleEvent (s : SWState) : SWEvent → SWState
  | SWEvent.install => s
  | SWEvent.activate => startMonitor s
  | SWEvent.fetchEv => if s.monitorRunning then s else startMonitor s

/-- Timer/flag coupling invariant: the number of live timers is 1 exactly
when the flag is set, else 0. -/
def timerInvariant (s : SWState) : Prop :=
  s.timers = (if s.monitorRunning then 1 else 0)

/-! ## Concrete sample inputs used to evaluate the definitions -/

/-- A 2xx probe/upload response. -/
def sampleOk : Response :=
  { status := 200, statusText := "OK", headers := [("content-type", "text/html")], body := "payload" }

/-- A 404 probe response. -/
def sample404 : Response :=
  { status := 404, statusText := "Not Found", headers := [], body := "gone" }

/-- A 500 upload response. -/
def sample500 : Response :=
  { status := 500, statusText := "Server Error", headers := [], body := "" }

/-- An upload oracle whose endpoint always answers 200. -/
def uploadOk : UploadRequest → Except String Response := fun _ => Except.ok sampleOk

/-- An upload oracle whose endpoint always answers 500. -/
def upload500 : UploadRequest → Except String Response := fun _ => Except.ok sample500

/-- An upload oracle whose fetch always rejects with a transport error. -/
def uploadDown : UploadRequest → Except String Response := fun _ => Except.error "Failed to fetch"

/-- A cache-read outcome that found a payload. -/
def cacheHit : Except String (Option String) := Except.ok (some "console.log(1);")

/-- A cache-read outcome that found nothing under the payload path. -/
def cacheMiss : Except String (Option String) := Except.ok none

/-- An unconsumed payload snapshot. -/
def sampleSnapshot : Snapshot :=
  { status := 200, headers := [("content-type", "text/javascript")],
    body := "console.log(1);", bodyUsed := false }

/-- A cache bucket holding the payload snapshot under the payload path. -/
def sampleCache : Cache := [(MALWARE_PATH, sampleSnapshot)]

/-- A client registry: a controlled window, an uncontrolled window, and a
controlled non-window client. -/
def sampleClients : List ClientInfo :=
  [{ id := 1, controlled := true, isWindow := true },
   { id := 2, controlled := false, isWindow := true },
   { id := 3, controlled := true, isWindow := false }]

/-- A fetched main document whose body has a closing body marker. -/
def sampleDoc : Response :=
  { status := 200, statusText := "OK",
    headers := [("Content-Length", "35"), ("x-demo", "1")],
    body := "<html><body><p>hi</p></body></html>" }

/-- A fetched document whose body has no closing body marker. -/
def sampleNoBody : Response :=
  { status := 200, statusText := "OK", headers := [("Content-Length", "16")],
    body := "<p>no marker</p>" }

/-! ## Helper lemmas -/

theorem splitFirst_sound (pat : List Char) :
    ∀ (s pre post : List Char), splitFirst pat s = some (pre, post) →
      s = pre ++ pat ++ post := by
  intro s
  induction s with
  | nil =>
      intro pre post h
      by_cases hp : pat.isPrefixOf ([] : List Char)
      · have hpat : pat = [] := List.prefix_nil.mp (List.isPrefixOf_iff_prefix.mp hp)
        simp [splitFirst, hp] at h
        simp [hpat, h.1, h.2]
      · simp [splitFirst, hp] at h
  | cons c rest ih =>
      intro pre post h
      by_cases hp : pat.isPrefixOf (c :: rest)
      · obtain ⟨t, ht⟩ := List.isPrefixOf_iff_prefix.mp hp
        simp [splitFirst, hp] at h
        obtain ⟨h1, h2⟩ := h
        subst h1
        rw [← h2, ← ht]
        simp [List.drop_left]
      · cases hsp : splitFirst pat rest with
        | none => simp [splitFirst, hp, hsp] at h
        | some pr =>
            simp [splitFirst, hp, hsp] at h
            have hr := ih pr.1 pr.2 hsp
            rw [← h.1, ← h.2]
            simp [hr]

theorem splitFirst_first (pat : List Char) :
    ∀ (s pre post pre2 post2 : List Char), splitFirst pat s = some (pre, post) →
      s = pre2 ++ pat ++ post2 → pre.length ≤ pre2.length := by
  intro s
  induction s with
  | nil =>
      intro pre post pre2 post2 h _
      by_cases hp : pat.isPrefixOf ([] : List Char)
      · simp [splitFirst, hp] at h
        simp [h.1]
      · simp [splitFirst, hp] at h
  | cons c rest ih =>
      intro pre post pre2 post2 h hdec
      by_cases hp : pat.isPrefixOf (c :: rest)
      · simp [splitFirst, hp] at h
        simp [h.1]
      · cases hsp : splitFirst pat rest with
        | none => simp [splitFirst, hp, hsp] at h
        | some pr =>
            simp [splitFirst, hp, hsp] at h
            cases pre2 with
            | nil =>
                exfalso
                apply hp
                apply List.isPrefixOf_iff_prefix.mpr
                exact ⟨post2, by simpa using hdec.symm⟩
            | cons c2 pre2t =>
                have htail : rest = pre2t ++ pat ++ post2 := by
                  simpa using congrArg List.tail hdec
                have := ih pr.1 pr.2 pre2t post2 hsp htail
                rw [← h.1]
                simpa using Nat.succ_le_succ this

theorem splitFirst_none (pat : List Char) :
    ∀ (s : List Char), splitFirst pat s = none →
      ∀ pre post, s ≠ pre ++ pat ++ post := by
  intro s
  induction s with
  | nil =>
      intro h pre post hdec
      by_cases hp : pat.isPrefixOf ([] : List Char)
      · simp [splitFirst, hp] at h
      · apply hp
        apply List.isPrefixOf_iff_prefix.mpr
        have h1 : (pre ++ pat) ++ post = [] := by simpa using hdec.symm
        have h2 := List.append_eq_nil.mp h1
        have h3 := List.append_eq_nil.mp h2.1
        exact List.prefix_nil.mpr h3.2
  | cons c rest ih =>
      intro h pre post hdec
      by_cases hp : pat.isPrefixOf (c :: rest)
      · simp [splitFirst, hp] at h
      · cases hsp : splitFirst pat rest with
        | some pr => simp [splitFirst, hp, hsp] at h
        | none =>
            cases pre with
            | nil =>
                apply hp
                apply List.isPrefixOf_iff_prefix.mpr
                exact ⟨post, by simpa using hdec.symm⟩
            | cons c2 pret =>
                apply ih hsp pret post
                simpa using congrArg List.tail hdec

theorem jsReplaceFirst_of_some {pat s : String} {pre post : List Char}
    (h : splitFirst pat.data s.data = some (pre, post)) (repl : String) :
    jsReplaceFirst s pat repl = String.mk (pre ++ repl.data ++ post) := by
  simp [jsReplaceFirst, listReplaceFirst, h]

theorem jsReplaceFirst_of_none {pat s : String}
    (h : splitFirst pat.data s.data = none) (repl : String) :
    jsReplaceFirst s pat repl = s := by
  simp [jsReplaceFirst, listReplaceFirst, h]

theorem timerInvariant_init : timerInvariant initState := rfl

theorem timerInvariant_startMonitor {s : SWState} (h : timerInvariant s) :
    timerInvariant (startMonitor s) := by
  unfold timerInvariant startMonitor at *
  cases hm : s.monitorRunning <;> simp [hm] at h ⊢ <;> simp [h]

theorem timerInvariant_handleEvent {s : SWState} (h : timerInvariant s) (e : SWEvent) :
    timerInvariant (handleEvent s e) := by
  cases e with
  | install => exact h
  | activate => exact timerInvariant_startMonitor h
  | fetchEv =>
      unfold handleEvent
      cases hm : s.monitorRunning
      · simpa [hm] using timerInvariant_startMonitor h
      · simpa [hm] using h

theorem timerInvariant_run (evs : List SWEvent) {s : SWState} (h : timerInvariant s) :
    timerInvariant (evs.foldl handleEvent s) := by
  induction evs generalizing s with
  | nil => exact h
  | cons e rest ih => exact ih (timerInvariant_handleEvent h e)

theorem lower_contentLength : lowerName "content-length" = "content-length" := by decide

theorem mem_runDeliveries {registry : List ClientInfo} {c : ClientInfo}
    (hc : c ∈ registry) (hw : c.isWindow = true) {m : Msg} {r : RunResult}
    (hm : m ∈ r.events) : (c.id, m) ∈ runDeliveries registry r := by
  unfold runDeliveries notifyClients matchAll
  apply List.mem_flatMap.mpr
  exact ⟨m, hm, List.mem_map.mpr ⟨c, List.mem_filter.mpr ⟨hc, by simp [hw]⟩, rfl⟩⟩

theorem readPayload_preserves (c : Cache) (p : String) : (c.readPayload p).2 = c := by
  rcases hm : c.matchPath p with _ | s
  · simp [Cache.readPayload, hm]
  · rcases ht : s.clone.text with e | pr
    · simp [Cache.readPayload, hm, ht]
    · simp [Cache.readPayload, hm, ht]

theorem handleEvent_armed {s : SWState} (h : s.monitorRunning = true) (e : SWEvent) :
    handleEvent s e = s := by
  cases e with
  | install => rfl
  | activate => simp [handleEvent, startMonitor, h]
  | fetchEv => simp [handleEvent, h]

theorem foldl_handleEvent_armed (evs : List SWEvent) :
    ∀ s : SWState, s.monitorRunning = true → evs.foldl handleEvent s = s := by
  induction evs with
  | nil => intro s _; rfl
  | cons e rest ih =>
      intro s h
      rw [List.foldl_cons, handleEvent_armed h e]
      exact ih s h

/-! ## Claims -/

/-- C1: each tick of the resurrection control loop classifies the probe of
the payload path: a 2xx response performs no recovery and emits no event; a
non-2xx response and a transport-level error are treated identically, and
either runs the resurrection sequence exactly once before the next tick. -/
theorem c1_tick_classification
    (cacheRead : Except String (Option String))
    (upload : UploadRequest → Except String Response)
    (t1 t2 : Nat) :
    (∀ resp : Response, resp.ok = true →
        checkAndResurrect (Except.ok resp) cacheRead upload t1 t2 =
          { resurrectCalls := 0, events := [], uploads := [] }) ∧
    (∀ resp : Response, resp.ok = false →
        (checkAndResurrect (Except.ok resp) cacheRead upload t1 t2).resurrectCalls = 1) ∧
    (∀ e : String,
        (checkAndResurrect (Except.error e) cacheRead upload t1 t2).resurrectCalls = 1) ∧
    (∀ (e : String) (resp : Response), resp.ok = false →
        checkAndResurrect (Except.error e) cacheRead upload t1 t2 =
          checkAndResurrect (Except.ok resp) cacheRead upload t1 t2) := by
  refine ⟨?_, ?_, ?_, ?_⟩ <;> intros <;> simp [checkAndResurrect, *]

/-- Witness for C1 at concrete probe outcomes: a 200, a 404, and a
transport error. -/
theorem c1_tick_classification_witness :
    checkAndResurrect (Except.ok sampleOk) cacheMiss uploadOk 0 1 =
      { resurrectCalls := 0, events := [], uploads := [] } ∧
    (checkAndResurrect (Except.ok sample404) cacheMiss uploadOk 0 1).resurrectCalls = 1 ∧
    (checkAndResurrect (Except.error "host unreachable") cacheMiss uploadOk 0 1).resurrectCalls = 1 ∧
    checkAndResurrect (Except.error "host unreachable") cacheMiss uploadOk 0 1 =
      checkAndResurrect (Except.ok sample404) cacheMiss uploadOk 0 1 :=
  ⟨(c1_tick_classification cacheMiss uploadOk 0 1).1 sampleOk (by decide),
   (c1_tick_classification cacheMiss uploadOk 0 1).2.1 sample404 (by decide),
   (c1_tick_classification cacheMiss uploadOk 0 1).2.2.1 "host unreachable",
   (c1_tick_classification cacheMiss uploadOk 0 1).2.2.2 "host unreachable" sample404 (by decide)⟩

/-- C3: a resurrection run against a bucket with no snapshot under the
payload path emits the failure message with reason "No cached payload in
CacheStorage" and issues no request to the write endpoint. -/
theorem c3_empty_cache (c : Cache)
    (upload : UploadRequest → Except String Response) (t1 t2 : Nat)
    (h : c.matchPath MALWARE_PATH = none) :
    (resurrectOnCache c upload t1 t2).1.events =
      [{ mtype := "RESURRECTION_STARTED", timestamp := some t1, reason := none },
       { mtype := "RESURRECTION_FAILED", timestamp := none,
         reason := some "No cached payload in CacheStorage" }] ∧
    (resurrectOnCache c upload t1 t2).1.uploads = [] := by
  simp [resurrectOnCache, Cache.readPayload, h, resurrect]

/-- Witness for C3 on the empty bucket. -/
theorem c3_empty_cache_witness :
    (resurrectOnCache [] uploadOk 0 1).1.events =
      [{ mtype := "RESURRECTION_STARTED", timestamp := some 0, reason := none },
       { mtype := "RESURRECTION_FAILED", timestamp := none,
         reason := some "No cached payload in CacheStorage" }] ∧
    (resurrectOnCache [] uploadOk 0 1).1.uploads = [] :=
  c3_empty_cache [] uploadOk 0 1 (by decide)

/-- C4: a resurrection run that found a payload issues exactly one write
request; a 2xx write response yields the success message, a non-2xx status
N yields a failure message with reason "Upload returned HTTP N", and a
transport error during the write yields a failure message carrying the
error text. -/
theorem c4_upload_outcomes (payload : String)
    (upload : UploadRequest → Except String Response) (t1 t2 : Nat) :
    (∀ resp : Response, upload (uploadReq payload) = Except.ok resp → resp.ok = true →
        resurrect (Except.ok (some payload)) upload t1 t2 =
          { events := [{ mtype := "RESURRECTION_STARTED", timestamp := some t1, reason := none },
                       { mtype := "RESURRECTED", timestamp := some t2, reason := none }],
            uploads := [uploadReq payload] }) ∧
    (∀ resp : Response, upload (uploadReq payload) = Except.ok resp → resp.ok = false →
        resurrect (Except.ok (some payload)) upload t1 t2 =
          { events := [{ mtype := "RESURRECTION_STARTED", timestamp := some t1, reason := none },
                       { mtype := "RESURRECTION_FAILED", timestamp := none,
                         reason := some ("Upload returned HTTP " ++ toString resp.status) }],
            uploads := [uploadReq payload] }) ∧
    (∀ e : String, upload (uploadReq payload) = Except.error e →
        resurrect (Except.ok (some payload)) upload t1 t2 =
          { events := [{ mtype := "RESURRECTION_STARTED", timestamp := some t1, reason := none },
                       { mtype := "RESURRECTION_FAILED", timestamp := none,
                         reason := some ("Upload error: " ++ e) }],
            uploads := [uploadReq payload] }) := by
  refine ⟨?_, ?_, ?_⟩ <;> intros <;> simp [resurrect, *]

/-- Witness for C4 under a healthy endpoint, a 500 endpoint, and an
unreachable endpoint. -/
theorem c4_upload_outcomes_witness :
    resurrect (Except.ok (some "console.log(1);")) uploadOk 0 1 =
      { events := [{ mtype := "RESURRECTION_STARTED", timestamp := some 0, reason := none },
                   { mtype := "RESURRECTED", timestamp := some 1, reason := none }],
        uploads := [uploadReq "console.log(1);"] } ∧
    resurrect (Except.ok (some "console.log(1);")) upload500 0 1 =
      { events := [{ mtype := "RESURRECTION_STARTED", timestamp := some 0, reason := none },
                   { mtype := "RESURRECTION_FAILED", timestamp := none,
                     reason := some ("Upload returned HTTP " ++ toString sample500.status) }],
        uploads := [uploadReq "console.log(1);"] } ∧
    resurrect (Except.ok (some "console.log(1);")) uploadDown 0 1 =
      { events := [{ mtype := "RESURRECTION_STARTED", timestamp := some 0, reason := none },
                   { mtype := "RESURRECTION_FAILED", timestamp := none,
                     reason := some ("Upload error: " ++ "Failed to fetch") }],
        uploads := [uploadReq "console.log(1);"] } :=
  ⟨(c4_upload_outcomes "console.log(1);" uploadOk 0 1).1 sampleOk rfl (by decide),
   (c4_upload_outcomes "console.log(1);" upload500 0 1).2.1 sample500 rfl (by decide),
   (c4_upload_outcomes "console.log(1);" uploadDown 0 1).2.2 "Failed to fetch" rfl⟩

/-- C7 counterexample: the first message posted by a concrete resurrection
run has type "RESURRECTION_STARTED", which is none of the three type names
the claim allows (STARTED, RESURRECTED, RESURRECTION_FAILED); in
particular no message of type "STARTED" is ever built. -/
theorem c7_type_name_counterexample :
    ((resurrect cacheMiss uploadOk 0 1).events.map Msg.mtype).head? =
      some "RESURRECTION_STARTED" ∧
    ¬ ("RESURRECTION_STARTED" = "STARTED" ∨ "RESURRECTION_STARTED" = "RESURRECTED" ∨
       "RESURRECTION_STARTED" = "RESURRECTION_FAILED") := by
  exact ⟨by decide, by decide⟩

/-- C7 (amended): every message delivered to foreground observers has a
type drawn from exactly RESURRECTION_STARTED, RESURRECTED, or
RESURRECTION_FAILED (with optional timestamp and reason fields), every run
posts the RESURRECTION_STARTED message first followed by exactly one
terminal message (RESURRECTED or RESURRECTION_FAILED), and each message is
fanned out to every reachable window observer, uncontrolled ones
included. -/
theorem c7_message_protocol
    (cacheRead : Except String (Option String))
    (upload : UploadRequest → Except String Response)
    (t1 t2 : Nat) (registry : List ClientInfo) :
    (∀ m ∈ (resurrect cacheRead upload t1 t2).events,
        m.mtype = "RESURRECTION_STARTED" ∨ m.mtype = "RESURRECTED" ∨
        m.mtype = "RESURRECTION_FAILED") ∧
    (∃ term : Msg,
        (resurrect cacheRead upload t1 t2).events =
          [{ mtype := "RESURRECTION_STARTED", timestamp := some t1, reason := none }, term] ∧
        (term.mtype = "RESURRECTED" ∨ term.mtype = "RESURRECTION_FAILED")) ∧
    (∀ c ∈ registry, c.isWindow = true →
        ∀ m ∈ (resurrect cacheRead upload t1 t2).events,
          (c.id, m) ∈ runDeliveries registry (resurrect cacheRead upload t1 t2)) := by
  refine ⟨?_, ?_, ?_⟩
  · intro m hm
    rcases cacheRead with e | op
    · simp [resurrect] at hm
      rcases hm with h | h <;> simp [h]
    · rcases op with _ | payload
      · simp [resurrect] at hm
        rcases hm with h | h <;> simp [h]
      · rcases hu : upload (uploadReq payload) with e | resp
        · simp [resurrect, hu] at hm
          rcases hm with h | h <;> simp [h]
        · by_cases hok : resp.ok <;> simp [resurrect, hu, hok] at hm <;>
            rcases hm with h | h <;> simp [h]
  · rcases cacheRead with e | op
    · exact ⟨{ mtype := "RESURRECTION_FAILED", timestamp := none,
               reason := some ("Cache read error: " ++ e) }, rfl, Or.inr rfl⟩
    · rcases op with _ | payload
      · exact ⟨{ mtype := "RESURRECTION_FAILED", timestamp := none,
                 reason := some "No cached payload in CacheStorage" }, rfl, Or.inr rfl⟩
      · rcases hu : upload (uploadReq payload) with e | resp
        · exact ⟨{ mtype := "RESURRECTION_FAILED", timestamp := none,
                   reason := some ("Upload error: " ++ e) }, by simp [resurrect, hu], Or.inr rfl⟩
        · by_cases hok : resp.ok
          · exact ⟨{ mtype := "RESURRECTED", timestamp := some t2, reason := none },
              by simp [resurrect, hu, hok], Or.inl rfl⟩
          · exact ⟨{ mtype := "RESURRECTION_FAILED", timestamp := none,
                     reason := some ("Upload returned HTTP " ++ toString resp.status) },
              by simp [resurrect, hu, hok], Or.inr rfl⟩
  · intro c hc hw m hm
    exact mem_runDeliveries hc hw hm

/-- Witness for C7 (amended): the uncontrolled window client (id 2) of the
sample registry receives the started message of a concrete run. -/
theorem c7_message_protocol_witness :
    (2, { mtype := "RESURRECTION_STARTED", timestamp := some 0, reason := none : Msg }) ∈
      runDeliveries sampleClients (resurrect cacheMiss uploadOk 0 1) :=
  (c7_message_protocol cacheMiss uploadOk 0 1 sampleClients).2.2
    { id := 2, controlled := false, isWindow := true } (by decide) rfl
    { mtype := "RESURRECTION_STARTED", timestamp := some 0, reason := none } (by decide)

/-- C8: reading the cached payload snapshot during a resurrection run
leaves the bucket unchanged — the entry is neither consumed nor mutated by
the read; an unconsumed snapshot under the payload path is read as its body
text, and re-running the sequence against the bucket a run leaves behind
reproduces the same run. -/
theorem c8_cache_read_pure (c : Cache)
    (upload : UploadRequest → Except String Response) (t1 t2 : Nat) :
    (resurrectOnCache c upload t1 t2).2 = c ∧
    (∀ s : Snapshot, c.matchPath MALWARE_PATH = some s → s.bodyUsed = false →
        (c.readPayload MALWARE_PATH).1 = Except.ok (some s.body)) ∧
    resurrectOnCache (resurrectOnCache c upload t1 t2).2 upload t1 t2 =
      resurrectOnCache c upload t1 t2 := by
  have hpres : (resurrectOnCache c upload t1 t2).2 = c := by
    simp [resurrectOnCache, readPayload_preserves]
  refine ⟨hpres, ?_, by rw [hpres]⟩
  intro s hs hused
  simp [Cache.readPayload, hs, Snapshot.clone, Snapshot.text, hused]

/-- Witness for C8 on the sample bucket: the bucket survives a run intact
and the snapshot body is read out. -/
theorem c8_cache_read_pure_witness :
    (resurrectOnCache sampleCache uploadOk 0 1).2 = sampleCache ∧
    (sampleCache.readPayload MALWARE_PATH).1 = Except.ok (some sampleSnapshot.body) :=
  ⟨(c8_cache_read_pure sampleCache uploadOk 0 1).1,
   (c8_cache_read_pure sampleCache uploadOk 0 1).2.1 sampleSnapshot (by decide) (by decide)⟩

/-- C2: `startMonitor` is a no-op when the monitor-running flag is already
set, and after any sequence of install/activate/fetch events handled by one
worker process from a fresh spawn, at most one interval timer is live. -/
theorem c2_at_most_one_timer :
    (∀ s : SWState, s.monitorRunning = true → startMonitor s = s) ∧
    (∀ evs : List SWEvent, (evs.foldl handleEvent initState).timers ≤ 1) := by
  constructor
  · intro s h
    simp [startMonitor, h]
  · intro evs
    have h := timerInvariant_run evs timerInvariant_init
    unfold timerInvariant at h
    rw [h]
    split <;> simp

/-- Witness for C2: an armed state is untouched by `startMonitor`, and a
concrete event sequence from spawn arms exactly one timer. -/
theorem c2_at_most_one_timer_witness :
    startMonitor { monitorRunning := true, timers := 1 } =
      { monitorRunning := true, timers := 1 } ∧
    (([SWEvent.install, SWEvent.activate, SWEvent.fetchEv, SWEvent.fetchEv].foldl
        handleEvent initState).timers ≤ 1) :=
  ⟨c2_at_most_one_timer.1 { monitorRunning := true, timers := 1 } rfl,
   c2_at_most_one_timer.2 [SWEvent.install, SWEvent.activate, SWEvent.fetchEv, SWEvent.fetchEv]⟩

/-- C10: the monitor-running flag is monotone within one process lifetime:
false at spawn, set to true by any `startMonitor` invocation, and once set,
every further handled event leaves the state — flag and timer count —
unchanged, so no second timer is ever armed. -/
theorem c10_flag_monotone :
    initState.monitorRunning = false ∧
    (∀ s : SWState, (startMonitor s).monitorRunning = true) ∧
    (∀ (s : SWState) (e : SWEvent), s.monitorRunning = true → handleEvent s e = s) ∧
    (∀ (evs : List SWEvent) (s : SWState), s.monitorRunning = true →
        evs.foldl handleEvent s = s) := by
  refine ⟨rfl, ?_, ?_, ?_⟩
  · intro s
    by_cases h : s.monitorRunning <;> simp [startMonitor, h]
  · intro s e h
    exact handleEvent_armed h e
  · intro evs s h
    exact foldl_handleEvent_armed evs s h

/-- Witness for C10: after the first `startMonitor`, a concrete burst of
further events leaves the armed state untouched. -/
theorem c10_flag_monotone_witness :
    (startMonitor initState).monitorRunning = true ∧
    handleEvent { monitorRunning := true, timers := 1 } SWEvent.fetchEv =
      { monitorRunning := true, timers := 1 } ∧
    ([SWEvent.fetchEv, SWEvent.activate, SWEvent.install].foldl handleEvent
        { monitorRunning := true, timers := 1 }) =
      { monitorRunning := true, timers := 1 } :=
  ⟨c10_flag_monotone.2.1 initState,
   c10_flag_monotone.2.2.1 { monitorRunning := true, timers := 1 } SWEvent.fetchEv rfl,
   c10_flag_monotone.2.2.2 [SWEvent.fetchEv, SWEvent.activate, SWEvent.install]
     { monitorRunning := true, timers := 1 } rfl⟩

/-- C5: when the injection path fails — the inner fetch of the real
document rejects, or reading the body as text rejects — the interception
handler returns the result of the unmodified live fetch instead of an error
response of its own; in particular when that live fetch yields a document
the handler yields that document. -/
theorem c5_injection_fallback (e : String) (resp doc : Response)
    (fb : Except String Response) :
    injectIntoPage (FetchOutcome.netError e) fb = fb ∧
    injectIntoPage (FetchOutcome.bodyError resp e) fb = fb ∧
    (fb = Except.ok doc →
        injectIntoPage (FetchOutcome.netError e) fb = Except.ok doc ∧
        injectIntoPage (FetchOutcome.bodyError resp e) fb = Except.ok doc) := by
  refine ⟨rfl, rfl, ?_⟩
  intro h
  exact ⟨h, h⟩

/-- Witness for C5: both failure modes fall back to the live document. -/
theorem c5_injection_fallback_witness :
    injectIntoPage (FetchOutcome.netError "Failed to fetch") (Except.ok sampleDoc) =
      Except.ok sampleDoc ∧
    injectIntoPage (FetchOutcome.bodyError sample500 "Failed to fetch") (Except.ok sampleDoc) =
      Except.ok sampleDoc :=
  (c5_injection_fallback "Failed to fetch" sample500 sampleDoc (Except.ok sampleDoc)).2.2 rfl

/-- C6: for a main-document request whose fetched body contains the closing
body marker, the handler answers with the document whose body has the
injected script block inserted exactly once, immediately before the first
closing body marker, with the content-length header removed and status and
status text preserved; every request off the two document paths is answered
by the live fetch unchanged. -/
theorem c6_injection (resp : Response) (fallback : Except String Response)
    (hmarker : ∃ pre post : String, resp.body = pre ++ "</body>" ++ post) :
    (∃ pre post : String,
        resp.body = pre ++ "</body>" ++ post ∧
        (∀ pre2 post2 : String, resp.body = pre2 ++ "</body>" ++ post2 →
            pre.length ≤ pre2.length) ∧
        injectIntoPage (FetchOutcome.success resp) fallback =
          Except.ok
            { status := resp.status,
              statusText := resp.statusText,
              headers := deleteHeader resp.headers "content-length",
              body := pre ++ injectedScript ++ "\n</body>" ++ post }) ∧
    (∀ kv ∈ (buildInjectedResponse resp).headers, lowerName kv.1 ≠ "content-length") ∧
    (∀ kv ∈ resp.headers, lowerName kv.1 ≠ "content-length" →
        kv ∈ (buildInjectedResponse resp).headers) ∧
    (∀ (p : String) (o : FetchOutcome) (fb : Except String Response),
        p ≠ "/" → p ≠ "/index.html" → handleFetchEvent p o fb = liveResult o) := by
  obtain ⟨preS, postS, hdec⟩ := hmarker
  have hd : resp.body.data = preS.data ++ "</body>".data ++ postS.data := by
    simpa using congrArg String.data hdec
  rcases hsp : splitFirst "</body>".data resp.body.data with _ | pr
  · exact absurd hd (splitFirst_none _ _ hsp preS.data postS.data)
  obtain ⟨preL, postL⟩ := pr
  have hsound := splitFirst_sound "</body>".data resp.body.data preL postL hsp
  refine ⟨⟨String.mk preL, String.mk postL, ?_, ?_, ?_⟩, ?_, ?_, ?_⟩
  · apply String.ext
    simpa using hsound
  · intro pre2 post2 h2
    have h2d : resp.body.data = pre2.data ++ "</body>".data ++ post2.data := by
      simpa using congrArg String.data h2
    exact splitFirst_first "</body>".data resp.body.data preL postL
      pre2.data post2.data hsp h2d
  · have hb := jsReplaceFirst_of_some hsp (injectedScript ++ "\n</body>")
    have hbody : jsReplaceFirst resp.body "</body>" (injectedScript ++ "\n</body>") =
        String.mk preL ++ injectedScript ++ "\n</body>" ++ String.mk postL := by
      rw [hb]
      apply String.ext
      simp [List.append_assoc]
    simp [injectIntoPage, buildInjectedResponse, hbody]
  · intro kv hkv
    simp [buildInjectedResponse, deleteHeader, lower_contentLength] at hkv
    exact hkv.2
  · intro kv hkv hne
    simp [buildInjectedResponse, deleteHeader, lower_contentLength]
    exact ⟨hkv, hne⟩
  · intro p o fb h1 h2
    have hcond : (p == "/" || p == "/index.html") = false := by
      simp [h1, h2]
    simp [handleFetchEvent, hcond]

/-- Witness for C6: the sample document's body decomposes around its
marker, and an off-path request is a pass-through. -/
theorem c6_injection_witness :
    handleFetchEvent "/style.css" (FetchOutcome.success sampleDoc) (Except.error "offline") =
      liveResult (FetchOutcome.success sampleDoc) :=
  (c6_injection sampleDoc (Except.error "offline")
      ⟨"<html><body><p>hi</p>", "</html>", by decide⟩).2.2.2 "/style.css"
    (FetchOutcome.success sampleDoc) (Except.error "offline") (by decide) (by decide)

/-- C9: for a main-document request whose fetched body contains no closing
body marker, the handler returns a response whose body is exactly the
fetched body, no script injected anywhere, still dropping the
content-length header and preserving status and status text. -/
theorem c9_no_marker (resp : Response) (fallback : Except String Response)
    (h : ∀ pre post : String, resp.body ≠ pre ++ "</body>" ++ post) :
    injectIntoPage (FetchOutcome.success resp) fallback =
      Except.ok
        { status := resp.status, statusText := resp.statusText,
          headers := deleteHeader resp.headers "content-length",
          body := resp.body } := by
  rcases hsp : splitFirst "</body>".data resp.body.data with _ | pr
  · have hb := jsReplaceFirst_of_none hsp (injectedScript ++ "\n</body>")
    simp [injectIntoPage, buildInjectedResponse, hb]
  · exfalso
    obtain ⟨preL, postL⟩ := pr
    have hsound := splitFirst_sound "</body>".data resp.body.data preL postL hsp
    apply h (String.mk preL) (String.mk postL)
    apply String.ext
    simpa using hsound

/-- Witness for C9 on a markerless document. -/
theorem c9_no_marker_witness :
    injectIntoPage (FetchOutcome.success sampleNoBody) (Except.error "offline") =
      Except.ok
        { status := sampleNoBody.status, statusText := sampleNoBody.statusText,
          headers := deleteHeader sampleNoBody.headers "content-length",
          body := sampleNoBody.body } :=
  c9_no_marker sampleNoBody (Except.error "offline")
    (fun pre post hq =>
      (splitFirst_none "</body>".data sampleNoBody.body.data (by decide) pre.data post.data)
        (by simpa using congrArg String.data hq))

end IronSpider
